import Mathlib

/-!
Verification of the directory-batch image-to-WebP converter
(`image_converter.py`) against its specification.

The script is shallowly embedded: filesystem state and standard output are an
explicit `World`, the image library (Pillow) and the host environment are an
oracle `Codec` describing the outcome of each externally-decided step (decode,
mode conversion, encode/write, directory creation, interrupt delivery), and
Python exceptions are an explicit `PyExc` value threaded through `PyResult`.
Paths are strings; the `pathlib` accessors used by the script (`name`, `stem`,
`suffix`, `parent`, ordering) are reproduced on strings.
-/

/-- Split a character list at every slash (Python `str.split("/")`; the model
treats paths as already normalized, without a trailing slash). -/
def splitOnSlash : List Char → List (List Char)
  | [] => [[]]
  | c :: rest =>
    let r := splitOnSlash rest
    if c = '/' then [] :: r
    else
      match r with
      | [] => [[c]]
      | h :: t => (c :: h) :: t

/-- Re-join path components with slashes (inverse of `splitOnSlash`). -/
def joinSlash : List (List Char) → List Char
  | [] => []
  | [x] => x
  | x :: xs => x ++ '/' :: joinSlash xs

/-- Python `Path.name`: the final path component (text after the last slash). -/
def pyBasename (p : String) : String :=
  String.mk ((splitOnSlash p.data).getLastD [])

/-- Index of the last occurrence of a dot in a string, if any
(Python `str.rfind`). -/
def lastDotIndex (s : String) : Option Nat :=
  ((List.range s.length).filter fun i => s.data.getD i ' ' = '.').getLast?

/-- Python `Path.suffix`: the extension of the final component, dot included.
Following `pathlib`, the dot must be neither the first nor the last character
of the name, otherwise the suffix is empty. -/
def pySuffix (p : String) : String :=
  let n := pyBasename p
  match lastDotIndex n with
  | some i => if 0 < i ∧ i < n.length - 1 then String.mk (n.data.drop i) else ""
  | none => ""

/-- Python `Path.stem`: the final component without its `pySuffix`. -/
def pyStem (p : String) : String :=
  let n := pyBasename p
  match lastDotIndex n with
  | some i => if 0 < i ∧ i < n.length - 1 then String.mk (n.data.take i) else n
  | none => n

/-- Python `Path.parent`: the path with its final component removed.
A single-component relative path has parent `"."`, as in `pathlib`. -/
def pyParent (p : String) : String :=
  let parts := splitOnSlash p.data
  if parts.length ≤ 1 then "."
  else if parts.dropLast = [[]] then "/"
  else String.mk (joinSlash parts.dropLast)

/-- `SUPPORTED_FORMATS` from the source (a Python set literal; membership is
what the code uses, so a list model is adequate). -/
def SUPPORTED_FORMATS : List String := [".jpg", ".jpeg", ".png"]

/-- Contents a path in the model filesystem can hold.  A `webp` entry records a
complete encode of source `src` (pixel mode `mode`, quality `q`); a
`truncatedWebp` entry is the partial artifact a mid-write encode failure leaves
behind; `raw` is any pre-existing file (an input image, a text file, ...). -/
inductive FileContent where
  | raw (tag : String)
  | webp (src : String) (mode : String) (q : Int)
  | truncatedWebp (src : String) (mode : String) (q : Int)
deriving DecidableEq, Repr

/-- The world the script acts on: existing directories, files with their
contents, and the lines printed so far. -/
structure World where
  dirs : List String
  files : List (String × FileContent)
  stdout : List String
deriving DecidableEq, Repr

/-- Append one printed line to standard output. -/
def printLine (w : World) (s : String) : World :=
  { w with stdout := w.stdout ++ [s] }

/-- Python `Path.exists`. -/
def pathExists (w : World) (p : String) : Bool :=
  w.dirs.contains p || (w.files.map Prod.fst).contains p

/-- Python `Path.is_dir`. -/
def isDir (w : World) (p : String) : Bool :=
  w.dirs.contains p

/-- Python `Path.is_file` (a regular file). -/
def isFile (w : World) (p : String) : Bool :=
  (w.files.map Prod.fst).contains p

/-- Python `Path.iterdir`: the immediate children of a directory (no
recursion).  The OS returns them in unspecified order; the model keeps the
order the world lists them in, and the script sorts afterwards. -/
def iterdir (w : World) (dir : String) : List String :=
  (w.dirs ++ w.files.map Prod.fst).filter fun p => pyParent p = dir

/-- Write (create or overwrite) a file in the model filesystem. -/
def setFile (l : List (String × FileContent)) (k : String) (v : FileContent) :
    List (String × FileContent) :=
  (k, v) :: l.filter fun kv => kv.1 ≠ k

/-- The Python exceptions the script distinguishes.  `exception` stands for any
other subclass of `Exception`; `keyboardInterrupt` derives from
`BaseException` only, so `except Exception` does not catch it. -/
inductive PyExc where
  | fileNotFound (msg : String)
  | notADirectory (msg : String)
  | exception (msg : String)
  | keyboardInterrupt
deriving DecidableEq, Repr

/-- Whether `except Exception` catches this exception: everything except
`KeyboardInterrupt` (which subclasses only `BaseException`). -/
def PyExc.isCatchable : PyExc → Bool
  | .keyboardInterrupt => false
  | _ => true

/-- `str(e)` for an exception. -/
def PyExc.text : PyExc → String
  | .fileNotFound m => m
  | .notADirectory m => m
  | .exception m => m
  | .keyboardInterrupt => ""

/-- Outcome of running a stateful fragment of the script: a value or an
uncaught Python exception, together with the world at that point (effects
performed before a failure are kept, as on a real filesystem). -/
inductive PyResult (α : Type) where
  | ok (w : World) (a : α)
  | exn (w : World) (e : PyExc)
deriving DecidableEq, Repr

/-- The world a result left behind. -/
def PyResult.world : PyResult α → World
  | .ok w _ => w
  | .exn w _ => w

/-- The value of a successful result, `none` on an uncaught exception. -/
def PyResult.okValue : PyResult α → Option α
  | .ok _ a => some a
  | .exn _ _ => none

/-- The dictionary `convert_all` returns. -/
structure ConversionStats where
  total : Nat
  converted : Nat
  failed : Nat
deriving DecidableEq, Repr

/-- The `ImageConverter` object: resolved folders and quality. -/
structure ImageConverter where
  input_folder : String
  output_folder : String
  quality : Int
deriving DecidableEq, Repr

/-- `ImageConverter.__init__`: resolve the output folder (sibling directory
literally named `"webp"` when absent), store the quality unvalidated, then
check that the input folder exists and is a directory, raising
`FileNotFoundError` or `NotADirectoryError` otherwise. -/
def ImageConverter.init (input_folder : String) (output_folder : Option String)
    (quality : Int) (w : World) : Except PyExc ImageConverter :=
  let out := match output_folder with
    | some o => o
    | none => pyParent input_folder ++ "/webp"
  if pathExists w input_folder = false then
    .error (.fileNotFound ("Input folder does not exist: " ++ input_folder))
  else if isDir w input_folder = false then
    .error (.notADirectory ("Input path is not a directory: " ++ input_folder))
  else
    .ok ⟨input_folder, out, quality⟩

/-- Python `str.lower` as the script applies it to extensions: ASCII letters
are lower-cased.  (Python also lower-cases non-ASCII letters, but a suffix
containing one can match nothing in `SUPPORTED_FORMATS` either way, so
membership below is unaffected.)  Implemented structurally so the kernel can
evaluate it (`String.toLower` is not kernel-reducible). -/
def strToLower (s : String) : String :=
  String.mk (s.data.map Char.toLower)

/-- Python string comparison on character lists: lexicographic by Unicode code
point. -/
def charListLe : List Char → List Char → Bool
  | [], _ => true
  | _ :: _, [] => false
  | a :: as, b :: bs => if a < b then true else if b < a then false else charListLe as bs

/-- Python `str.__le__`, the order `sorted` uses (on POSIX, `Path.__lt__`
compares the full path strings, so sorting paths is sorting these strings). -/
def pathLe (a b : String) : Bool :=
  charListLe a.data b.data

/-- `find_images`: the immediate entries of the input folder that are regular
files whose lower-cased extension is supported, sorted ascending by full path
string. -/
def find_images (c : ImageConverter) (w : World) : List String :=
  List.insertionSort (fun a b => pathLe a b = true)
    ((iterdir w c.input_folder).filter fun p =>
      isFile w p && SUPPORTED_FORMATS.contains (strToLower (pySuffix p)))

/-- The mode-normalization chain of `convert_image` (lines 73-87): the pixel
mode the image has when it reaches `img.save`. -/
def normalize_mode (mode : String) : String :=
  if mode = "P" then "RGBA"
  else if mode = "LA" then "RGBA"
  else if mode = "RGB" then mode
  else if mode = "RGBA" then mode
  else "RGB"

/-- Whether the chain calls `img.convert` at all: it does for every mode other
than `RGB` and `RGBA`, which pass through unchanged. -/
def needsConvert (mode : String) : Bool :=
  !(mode == "RGB" || mode == "RGBA")

/-- The destination `output_folder / (stem + ".webp")` of an input path. -/
def output_path (c : ImageConverter) (p : String) : String :=
  c.output_folder ++ "/" ++ (pyStem p ++ ".webp")

/-- Oracle for every step whose outcome the environment or the image library
decides.  `decode p` is what `Image.open` yields for path `p` (the decoded
pixel mode, or an error).  `convertOk p` is whether `img.convert` succeeds.
`saveOk p` is whether `img.save` completes; when it fails, `truncatedLeft p`
says whether bytes had already been written to the destination — Pillow's
`save` opens the destination for writing and then encodes into it, so a
mid-encode failure leaves a truncated file, while a failure to open it leaves
nothing.  `mkdirOk` is whether `mkdir` can create a missing directory.
`interrupted i` models the user's interrupt signal arriving at the start of
iteration `i` of the batch loop. -/
structure Codec where
  decode : String → Except String String
  convertOk : String → Bool
  saveOk : String → Bool
  truncatedLeft : String → Bool
  mkdirOk : Bool
  interrupted : Nat → Bool

/-- The `try` block of `convert_image` (lines 66-97): create the output folder
(with parents, no error if present), open and decode the image, normalize its
mode, and save it as WebP to `output_path`.  Any step may raise; the world at
the raise point is kept. -/
def convert_image_body (c : ImageConverter) (cod : Codec) (w : World)
    (p : String) : PyResult Unit :=
  if c.output_folder ∈ w.dirs ∨ cod.mkdirOk = true then
    let w1 : World :=
      { w with dirs := if c.output_folder ∈ w.dirs then w.dirs
                       else c.output_folder :: w.dirs }
    match cod.decode p with
    | .error msg => .exn w1 (.exception msg)
    | .ok mode =>
      if needsConvert mode = true ∧ cod.convertOk p = false then
        .exn w1 (.exception ("image conversion failed for mode " ++ mode))
      else
        let mode2 := normalize_mode mode
        let out := output_path c p
        if cod.saveOk p then
          .ok { w1 with files := setFile w1.files out (.webp p mode2 c.quality) } ()
        else
          let w2 : World :=
            if cod.truncatedLeft p then
              { w1 with files := setFile w1.files out (.truncatedWebp p mode2 c.quality) }
            else w1
          .exn w2 (.exception ("could not write " ++ out))
  else
    .exn w (.exception ("could not create directory " ++ c.output_folder))

/-- `convert_image`: run the body under `except Exception`, printing one line
and returning a success flag; only an exception `except Exception` does not
catch would propagate. -/
def convert_image (c : ImageConverter) (cod : Codec) (w : World)
    (p : String) : PyResult Bool :=
  match convert_image_body c cod w p with
  | .ok w1 _ =>
    .ok (printLine w1 ("✓ Converted: " ++ pyBasename p ++ " -> " ++ (pyStem p ++ ".webp"))) true
  | .exn w1 e =>
    if e.isCatchable then
      .ok (printLine w1 ("✗ Failed to convert " ++ pyBasename p ++ ": " ++ e.text)) false
    else
      .exn w1 e

/-- The `for` loop of `convert_all`: process each file in order, incrementing
`converted` or `failed`.  `i` indexes the iteration so the oracle can place the
user's interrupt, which is raised here and not caught (`except Exception` in
`convert_image` does not catch `KeyboardInterrupt`). -/
def convert_loop (c : ImageConverter) (cod : Codec) :
    List String → Nat → Nat → Nat → World → PyResult (Nat × Nat)
  | [], _, conv, fail, w => .ok w (conv, fail)
  | p :: rest, i, conv, fail, w =>
    if cod.interrupted i = true then .exn w .keyboardInterrupt
    else
      match convert_image c cod w p with
      | .ok w1 true => convert_loop c cod rest (i + 1) (conv + 1) fail w1
      | .ok w1 false => convert_loop c cod rest (i + 1) conv (fail + 1) w1
      | .exn w1 e => .exn w1 e

/-- `convert_all`: discover, return zero statistics at once when nothing was
found, otherwise print the header and run the loop. -/
def convert_all (c : ImageConverter) (cod : Codec) (w : World) :
    PyResult ConversionStats :=
  let images := find_images c w
  if images = [] then
    .ok (printLine w ("No supported image files found in: " ++ c.input_folder))
      ⟨0, 0, 0⟩
  else
    let w1 := printLine w ("Found " ++ toString images.length ++ " image(s) to convert...")
    let w2 := printLine w1 ("Input folder: " ++ c.input_folder)
    let w3 := printLine w2 ("Output folder: " ++ c.output_folder)
    let w4 := printLine w3 ("Quality: " ++ toString c.quality ++ "%")
    let w5 := printLine w4 (String.mk (List.replicate 50 '-'))
    match convert_loop c cod images 0 0 0 w5 with
    | .ok w6 (conv, fail) => .ok w6 ⟨images.length, conv, fail⟩
    | .exn w6 e => .exn w6 e

/-- The parsed command line. -/
structure Args where
  input_folder : String
  output : Option String
  quality : Int
deriving DecidableEq, Repr

/-- `main` after argument parsing (named `py_main`, since Lean reserves `main`): validate quality, construct the converter,
run the batch, print the summary, and exit 1 when any file failed, when setup
failed, or when the run was interrupted; returns the final world and the
process exit code. -/
def py_main (args : Args) (cod : Codec) (w : World) : World × Nat :=
  if ¬(0 ≤ args.quality ∧ args.quality ≤ 100) then
    (printLine w "Error: Quality must be between 0 and 100", 1)
  else
    match ImageConverter.init args.input_folder args.output args.quality w with
    | .error e => (printLine w ("Error: " ++ e.text), 1)
    | .ok c =>
      match convert_all c cod w with
      | .ok w1 stats =>
        let w2 := printLine w1 (String.mk (List.replicate 50 '-'))
        let w3 := printLine w2 "Conversion complete!"
        let w4 := printLine w3 ("Total files: " ++ toString stats.total)
        let w5 := printLine w4 ("Successfully converted: " ++ toString stats.converted)
        let w6 := printLine w5 ("Failed: " ++ toString stats.failed)
        if stats.failed > 0 then (w6, 1) else (w6, 0)
      | .exn w1 .keyboardInterrupt =>
        (printLine w1 "\nConversion cancelled by user.", 1)
      | .exn w1 (.fileNotFound m) => (printLine w1 ("Error: " ++ m), 1)
      | .exn w1 (.notADirectory m) => (printLine w1 ("Error: " ++ m), 1)
      | .exn w1 (.exception m) => (printLine w1 ("Unexpected error: " ++ m), 1)

/-! ## Demonstration worlds used by witnesses -/

/-- A world with an input directory holding two images and a text file. -/
def demoWorld : World :=
  ⟨["in"], [("in/a.png", .raw "png"), ("in/b.jpg", .raw "jpg"),
            ("in/notes.txt", .raw "txt")], []⟩

/-- A world whose input directory exists but holds no files. -/
def demoEmptyWorld : World := ⟨["in"], [], []⟩

/-- The converter for the demo worlds: input `in`, output `out`, quality 80. -/
def demoConv : ImageConverter := ⟨"in", "out", 80⟩

/-- An oracle on which everything succeeds: every file decodes to `RGB`, every
conversion and save succeeds, directories can be created, no interrupt. -/
def demoCodec : Codec :=
  ⟨fun _ => .ok "RGB", fun _ => true, fun _ => true, fun _ => false, true,
   fun _ => false⟩

/-! ## Helper lemmas -/

/-- Every exception the body of `convert_image` can raise is a subclass of
`Exception` (`except Exception` catches it): decode, mode-conversion, save and
mkdir failures all raise ordinary exceptions. -/
lemma convert_image_body_exn_catchable (c : ImageConverter) (cod : Codec)
    (w : World) (p : String) (w1 : World) (e : PyExc)
    (h : convert_image_body c cod w p = .exn w1 e) : e.isCatchable = true := by
  unfold convert_image_body at h
  repeat' split at h
  all_goals cases h
  all_goals rfl

/-- `convert_image` always returns a boolean: the `except Exception` handler
catches everything the body can raise. -/
lemma convert_image_total (c : ImageConverter) (cod : Codec) (w : World)
    (p : String) : ∃ w1 b, convert_image c cod w p = .ok w1 b := by
  cases h : convert_image_body c cod w p with
  | ok w1 a =>
    exact ⟨printLine w1 ("✓ Converted: " ++ pyBasename p ++ " -> " ++ (pyStem p ++ ".webp")),
      true, by simp [convert_image, h]⟩
  | exn w1 e =>
    exact ⟨printLine w1 ("✗ Failed to convert " ++ pyBasename p ++ ": " ++ e.text),
      false, by simp [convert_image, h, convert_image_body_exn_catchable c cod w p w1 e h]⟩

/-- When the loop completes, the two counters account for exactly the files
processed: one increment per file, on one side or the other. -/
lemma convert_loop_counts (c : ImageConverter) (cod : Codec) :
    ∀ (ps : List String) (i conv fail : Nat) (w w1 : World) (a b : Nat),
      convert_loop c cod ps i conv fail w = .ok w1 (a, b) →
      a + b = conv + fail + ps.length := by
  intro ps
  induction ps with
  | nil =>
    intro i conv fail w w1 a b h
    simp [convert_loop] at h
    simp
    omega
  | cons p rest ih =>
    intro i conv fail w w1 a b h
    unfold convert_loop at h
    split at h
    · cases h
    · cases hc : convert_image c cod w p with
      | ok w2 flag =>
        rw [hc] at h
        cases flag with
        | true =>
          have := ih (i + 1) (conv + 1) fail w2 w1 a b h
          simp only [List.length_cons]
          omega
        | false =>
          have := ih (i + 1) conv (fail + 1) w2 w1 a b h
          simp only [List.length_cons]
          omega
      | exn w2 e =>
        rw [hc] at h
        cases h

/-- The body of `convert_image` either leaves the directory list alone or
prepends the output folder to it (created by `mkdir`). -/
lemma convert_image_body_dirs (c : ImageConverter) (cod : Codec) (w : World)
    (p : String) :
    (convert_image_body c cod w p).world.dirs = w.dirs ∨
    (convert_image_body c cod w p).world.dirs = c.output_folder :: w.dirs := by
  unfold convert_image_body
  repeat' split
  all_goals simp [PyResult.world]

/-- `convert_image` leaves the directory list exactly as its body left it
(the handler only prints). -/
lemma convert_image_world_dirs_eq (c : ImageConverter) (cod : Codec)
    (w : World) (p : String) :
    (convert_image c cod w p).world.dirs =
    (convert_image_body c cod w p).world.dirs := by
  unfold convert_image
  cases convert_image_body c cod w p with
  | ok w1 a => simp [printLine, PyResult.world]
  | exn w1 e => cases he : e.isCatchable <;> simp [printLine, PyResult.world, he]

/-- Directories are never removed across one `convert_image` call. -/
lemma convert_image_dirs_mono (c : ImageConverter) (cod : Codec) (w : World)
    (p : String) (q : String) (hq : q ∈ w.dirs) :
    q ∈ (convert_image c cod w p).world.dirs := by
  rw [convert_image_world_dirs_eq]
  rcases convert_image_body_dirs c cod w p with h | h <;> rw [h]
  · exact hq
  · exact List.mem_cons_of_mem _ hq

/-- With a working `mkdir`, the body of `convert_image` guarantees the output
folder exists afterwards, whatever happens to decode, conversion or save. -/
lemma convert_image_body_creates (c : ImageConverter) (cod : Codec) (w : World)
    (p : String) (hmk : cod.mkdirOk = true) :
    c.output_folder ∈ (convert_image_body c cod w p).world.dirs := by
  unfold convert_image_body
  repeat' split
  all_goals simp_all [PyResult.world]

/-- With a working `mkdir`, `convert_image` guarantees the output folder
exists afterwards, whatever happens to the decode, conversion or save. -/
lemma convert_image_creates_output_folder (c : ImageConverter) (cod : Codec)
    (w : World) (p : String) (hmk : cod.mkdirOk = true) :
    c.output_folder ∈ (convert_image c cod w p).world.dirs := by
  rw [convert_image_world_dirs_eq]
  exact convert_image_body_creates c cod w p hmk

/-- Directories are never removed across the whole batch loop. -/
lemma convert_loop_dirs_mono (c : ImageConverter) (cod : Codec) :
    ∀ (ps : List String) (i conv fail : Nat) (w : World) (q : String),
      q ∈ w.dirs → q ∈ (convert_loop c cod ps i conv fail w).world.dirs := by
  intro ps
  induction ps with
  | nil => intro i conv fail w q hq; simpa [convert_loop, PyResult.world] using hq
  | cons p rest ih =>
    intro i conv fail w q hq
    unfold convert_loop
    split
    · simpa [PyResult.world] using hq
    · have hmono := convert_image_dirs_mono c cod w p q hq
      cases hc : convert_image c cod w p with
      | ok w2 flag =>
        rw [hc] at hmono
        cases flag with
        | true => exact ih (i + 1) (conv + 1) fail w2 q hmono
        | false => exact ih (i + 1) conv (fail + 1) w2 q hmono
      | exn w2 e =>
        rw [hc] at hmono
        simpa [PyResult.world] using hmono

/-- Unfolding lemma for `charListLe` on two non-empty lists. -/
lemma charListLe_cons_iff (a b : Char) (as bs : List Char) :
    charListLe (a :: as) (b :: bs) = true ↔
    a < b ∨ (a = b ∧ charListLe as bs = true) := by
  simp only [charListLe]
  rcases lt_trichotomy a b with h | h | h
  · simp [h]
  · subst h; simp [lt_irrefl]
  · rw [if_neg (lt_asymm h), if_pos h]
    simp only [Bool.false_eq_true, false_iff]
    rintro (hc | ⟨rfl, -⟩)
    · exact absurd hc (lt_asymm h)
    · exact lt_irrefl a h

/-- `charListLe` is total. -/
lemma charListLe_total : ∀ as bs, charListLe as bs = true ∨ charListLe bs as = true := by
  intro as
  induction as with
  | nil => intro bs; left; rfl
  | cons a as ih =>
    intro bs
    cases bs with
    | nil => right; rfl
    | cons b bs =>
      rw [charListLe_cons_iff, charListLe_cons_iff]
      rcases lt_trichotomy a b with h | h | h
      · exact Or.inl (Or.inl h)
      · subst h
        rcases ih bs with h2 | h2
        · exact Or.inl (Or.inr ⟨rfl, h2⟩)
        · exact Or.inr (Or.inr ⟨rfl, h2⟩)
      · exact Or.inr (Or.inl h)

/-- `charListLe` is transitive. -/
lemma charListLe_trans : ∀ as bs cs, charListLe as bs = true → charListLe bs cs = true →
    charListLe as cs = true := by
  intro as
  induction as with
  | nil => intro bs cs _ _; rfl
  | cons a as ih =>
    intro bs cs h1 h2
    cases bs with
    | nil => simp [charListLe] at h1
    | cons b bs =>
      cases cs with
      | nil => simp [charListLe] at h2
      | cons c cs =>
        rw [charListLe_cons_iff] at h1 h2 ⊢
        rcases h1 with h1 | ⟨rfl, h1⟩
        · rcases h2 with h2 | ⟨rfl, h2⟩
          · exact Or.inl (lt_trans h1 h2)
          · exact Or.inl h1
        · rcases h2 with h2 | ⟨rfl, h2⟩
          · exact Or.inl h2
          · exact Or.inr ⟨rfl, ih bs cs h1 h2⟩

instance : IsTotal String (fun a b => pathLe a b = true) :=
  ⟨fun a b => charListLe_total a.data b.data⟩

instance : IsTrans String (fun a b => pathLe a b = true) :=
  ⟨fun a b c => charListLe_trans a.data b.data c.data⟩

/-! ## Claim theorems -/

/-- C2: for every path given to it, `convert_image` returns a boolean success
flag and no exception of any kind propagates out: every failure the body can
raise (folder creation, decode, mode conversion, encode/write) is caught by
its `except Exception` handler and reported as the return value `false`,
together with the failure line. -/
theorem convert_image_catches_all_failures (c : ImageConverter) (cod : Codec)
    (w : World) (p : String) :
    (∃ w1 b, convert_image c cod w p = PyResult.ok w1 b) ∧
    (∀ w1 e, convert_image_body c cod w p = PyResult.exn w1 e →
      convert_image c cod w p =
        PyResult.ok
          (printLine w1 ("✗ Failed to convert " ++ pyBasename p ++ ": " ++ e.text))
          false) := by
  refine ⟨convert_image_total c cod w p, fun w1 e h => ?_⟩
  simp [convert_image, h, convert_image_body_exn_catchable c cod w p w1 e h]

/-- Witness for C2: a file whose decode fails is reported as `false` with the
failure line, and no exception escapes. -/
theorem convert_image_catches_all_failures_witness :
    convert_image demoConv ⟨fun _ => .error "cannot identify image file",
        fun _ => true, fun _ => true, fun _ => false, true, fun _ => false⟩
      demoWorld "in/a.png" =
    PyResult.ok
      ⟨["out", "in"],
       [("in/a.png", .raw "png"), ("in/b.jpg", .raw "jpg"),
        ("in/notes.txt", .raw "txt")],
       ["✗ Failed to convert a.png: cannot identify image file"]⟩ false := by
  have h := (convert_image_catches_all_failures demoConv
    ⟨fun _ => .error "cannot identify image file", fun _ => true, fun _ => true,
     fun _ => false, true, fun _ => false⟩ demoWorld "in/a.png").2
    ⟨["out", "in"],
     [("in/a.png", .raw "png"), ("in/b.jpg", .raw "jpg"),
      ("in/notes.txt", .raw "txt")], []⟩
    (.exception "cannot identify image file") (by decide)
  exact h.trans (by decide)

/-- C4: the mode-normalization policy before encoding matches the spec's
table: palette-indexed (`P`) and grayscale-with-alpha (`LA`) become `RGBA`,
`RGB` and `RGBA` pass through unchanged (no `img.convert` call at all), and
every other decoded mode becomes `RGB`. -/
theorem convert_image_mode_normalization :
    normalize_mode "P" = "RGBA" ∧ normalize_mode "LA" = "RGBA" ∧
    normalize_mode "RGB" = "RGB" ∧ normalize_mode "RGBA" = "RGBA" ∧
    needsConvert "RGB" = false ∧ needsConvert "RGBA" = false ∧
    ∀ m, m ≠ "P" → m ≠ "LA" → m ≠ "RGB" → m ≠ "RGBA" →
      normalize_mode m = "RGB" ∧ needsConvert m = true := by
  refine ⟨by decide, by decide, by decide, by decide, by decide, by decide,
    fun m h1 h2 h3 h4 => ⟨?_, ?_⟩⟩
  · simp [normalize_mode, h1, h2, h3, h4]
  · simp [needsConvert, h3, h4]

/-- Witness for C4: a grayscale-only image (`L`) and a CMYK image both fall in
the catch-all row and are converted to `RGB`. -/
theorem convert_image_mode_normalization_witness :
    (normalize_mode "L" = "RGB" ∧ needsConvert "L" = true) ∧
    (normalize_mode "CMYK" = "RGB" ∧ needsConvert "CMYK" = true) :=
  ⟨convert_image_mode_normalization.2.2.2.2.2.2 "L"
      (by decide) (by decide) (by decide) (by decide),
   convert_image_mode_normalization.2.2.2.2.2.2 "CMYK"
      (by decide) (by decide) (by decide) (by decide)⟩

/-- C8: construction fails with `FileNotFoundError` when the input folder does
not exist, with `NotADirectoryError` when it exists but is not a directory,
and succeeds otherwise — no other construction failure exists. -/
theorem imageConverter_init_validation (inp : String) (out : Option String)
    (q : Int) (w : World) :
    (pathExists w inp = false →
      ImageConverter.init inp out q w =
        .error (.fileNotFound ("Input folder does not exist: " ++ inp))) ∧
    (pathExists w inp = true → isDir w inp = false →
      ImageConverter.init inp out q w =
        .error (.notADirectory ("Input path is not a directory: " ++ inp))) ∧
    (pathExists w inp = true → isDir w inp = true →
      ImageConverter.init inp out q w =
        .ok ⟨inp, (match out with
                   | some o => o
                   | none => pyParent inp ++ "/webp"), q⟩) := by
  refine ⟨fun h => ?_, fun h1 h2 => ?_, fun h1 h2 => ?_⟩
  · simp [ImageConverter.init, h]
  · simp [ImageConverter.init, h1, h2]
  · simp [ImageConverter.init, h1, h2]

/-- Witness for C8: on a world with directory `in` and no entry `missing`,
construction succeeds for `in` (deriving the sibling `webp` folder), fails
with `FileNotFoundError` for `missing`, and fails with `NotADirectoryError`
for the regular file `in/a.png`. -/
theorem imageConverter_init_validation_witness :
    ImageConverter.init "in" none 80 demoWorld = .ok ⟨"in", "./webp", 80⟩ ∧
    ImageConverter.init "missing" none 80 demoWorld =
      .error (.fileNotFound "Input folder does not exist: missing") ∧
    ImageConverter.init "in/a.png" none 80 demoWorld =
      .error (.notADirectory "Input path is not a directory: in/a.png") :=
  ⟨((imageConverter_init_validation "in" none 80 demoWorld).2.2
      (by decide) (by decide)).trans (by rfl),
   (imageConverter_init_validation "missing" none 80 demoWorld).1 (by decide),
   (imageConverter_init_validation "in/a.png" none 80 demoWorld).2.1
      (by decide) (by decide)⟩

/-- C5: `find_images` returns exactly the immediate entries of the input
folder that are regular files with a supported lower-cased extension
(`.jpg`, `.jpeg`, `.png`), sorted ascending by full path string; consequently
a file with any other extension is never discovered. -/
theorem find_images_discovery (c : ImageConverter) (w : World) :
    (find_images c w).Sorted (fun a b => pathLe a b = true) ∧
    (∀ p, p ∈ find_images c w ↔
      p ∈ iterdir w c.input_folder ∧ isFile w p = true ∧
        strToLower (pySuffix p) ∈ SUPPORTED_FORMATS) ∧
    (∀ p, strToLower (pySuffix p) ∉ SUPPORTED_FORMATS → p ∉ find_images c w) := by
  have hmem : ∀ p, p ∈ find_images c w ↔
      p ∈ iterdir w c.input_folder ∧ isFile w p = true ∧
        strToLower (pySuffix p) ∈ SUPPORTED_FORMATS := by
    intro p
    simp [find_images, List.mem_insertionSort, List.mem_filter,
      Bool.and_eq_true, List.elem_iff, and_assoc]
  refine ⟨List.sorted_insertionSort _ _, hmem, fun p hp hmem2 => ?_⟩
  exact hp ((hmem p).1 hmem2).2.2

/-- Witness for C5: in the demo world, `a.png` and `b.jpg` are discovered (in
sorted order) while `notes.txt` is not. -/
theorem find_images_discovery_witness :
    "in/notes.txt" ∉ find_images demoConv demoWorld ∧
    find_images demoConv demoWorld = ["in/a.png", "in/b.jpg"] :=
  ⟨(find_images_discovery demoConv demoWorld).2.2 "in/notes.txt" (by decide),
   by decide⟩

/-- C7: when discovery returns no files, `convert_all` returns zero statistics
immediately, printing only the "no files found" notice; the filesystem — in
particular the output folder's existence — is untouched. -/
theorem convert_all_empty_returns_zero_stats (c : ImageConverter) (cod : Codec)
    (w : World) (h : find_images c w = []) :
    convert_all c cod w =
      .ok (printLine w ("No supported image files found in: " ++ c.input_folder))
        ⟨0, 0, 0⟩ ∧
    (convert_all c cod w).world.dirs = w.dirs ∧
    (convert_all c cod w).world.files = w.files ∧
    (convert_all c cod w).world.stdout =
      w.stdout ++ ["No supported image files found in: " ++ c.input_folder] := by
  have he : convert_all c cod w =
      .ok (printLine w ("No supported image files found in: " ++ c.input_folder))
        ⟨0, 0, 0⟩ := by
    simp [convert_all, h]
  refine ⟨he, ?_, ?_, ?_⟩ <;> rw [he] <;> simp [printLine, PyResult.world]

/-- Witness for C7: on the empty input folder the batch returns
`total=0, converted=0, failed=0` and creates no output folder. -/
theorem convert_all_empty_returns_zero_stats_witness :
    convert_all demoConv demoCodec demoEmptyWorld =
      .ok ⟨["in"], [], ["No supported image files found in: in"]⟩ ⟨0, 0, 0⟩ :=
  ((convert_all_empty_returns_zero_stats demoConv demoCodec demoEmptyWorld
      (by decide)).1).trans (by decide)

/-- C1: whenever `convert_all` completes on a non-empty discovered list, the
returned statistics satisfy `total = converted + failed`, with `total` the
number of discovered files: each discovered file contributes exactly one
increment to one of the two counters. -/
theorem convert_all_stats_invariant (c : ImageConverter) (cod : Codec)
    (w : World) (hne : find_images c w ≠ []) (w1 : World)
    (stats : ConversionStats) (h : convert_all c cod w = .ok w1 stats) :
    stats.total = stats.converted + stats.failed ∧
    stats.total = (find_images c w).length := by
  simp only [convert_all] at h
  split at h
  · exact absurd (by assumption) hne
  · split at h
    · rename_i x w6 conv fail heq
      have hc := convert_loop_counts c cod (find_images c w) 0 0 0 _ w6 conv
        fail heq
      cases h
      exact ⟨by simpa using hc.symm, rfl⟩
    · cases h

/-- Witness for C1: the demo run discovers two files, converts both, and the
statistics add up. -/
theorem convert_all_stats_invariant_witness :
    (⟨2, 2, 0⟩ : ConversionStats).total =
      (⟨2, 2, 0⟩ : ConversionStats).converted +
        (⟨2, 2, 0⟩ : ConversionStats).failed ∧
    (⟨2, 2, 0⟩ : ConversionStats).total =
      (find_images demoConv demoWorld).length :=
  convert_all_stats_invariant demoConv demoCodec demoWorld (by decide)
    (convert_all demoConv demoCodec demoWorld).world ⟨2, 2, 0⟩ (by decide)

/-- A completed loop iteration over at least one file guarantees the output
folder exists at the end (given a working `mkdir`): `convert_image` creates it
first thing, and nothing ever removes it. -/
lemma convert_loop_cons_creates (c : ImageConverter) (cod : Codec)
    (p : String) (rest : List String) (i conv fail : Nat) (w w1 : World)
    (r : Nat × Nat) (hmk : cod.mkdirOk = true)
    (h : convert_loop c cod (p :: rest) i conv fail w = .ok w1 r) :
    c.output_folder ∈ w1.dirs := by
  unfold convert_loop at h
  split at h
  · cases h
  · cases hc : convert_image c cod w p with
    | ok w2 flag =>
      rw [hc] at h
      have hmem : c.output_folder ∈ w2.dirs := by
        have hcr := convert_image_creates_output_folder c cod w p hmk
        rwa [hc] at hcr
      cases flag with
      | true =>
        simp only [] at h
        have hmono := convert_loop_dirs_mono c cod rest (i + 1) (conv + 1)
          fail w2 _ hmem
        rw [h] at hmono
        simpa [PyResult.world] using hmono
      | false =>
        simp only [] at h
        have hmono := convert_loop_dirs_mono c cod rest (i + 1) conv
          (fail + 1) w2 _ hmem
        rw [h] at hmono
        simpa [PyResult.world] using hmono
    | exn w2 e =>
      rw [hc] at h
      cases h

/-- An oracle on which every decode fails (corrupt inputs); everything else
works. -/
def demoFailDecodeCodec : Codec :=
  ⟨fun _ => .error "cannot identify image file", fun _ => true, fun _ => true,
   fun _ => false, true, fun _ => false⟩

/-- C10: `convert_image` creates the output folder before attempting to
decode, so whenever at least one candidate file was discovered and the batch
completed, the output folder exists afterwards — even if every single
conversion failed after folder creation and no `.webp` was ever written. -/
theorem convert_all_creates_output_folder (c : ImageConverter) (cod : Codec)
    (w : World) (hne : find_images c w ≠ []) (hmk : cod.mkdirOk = true)
    (w1 : World) (stats : ConversionStats)
    (h : convert_all c cod w = .ok w1 stats) :
    c.output_folder ∈ w1.dirs := by
  simp only [convert_all] at h
  split at h
  · exact absurd (by assumption) hne
  · split at h
    · rename_i x w6 conv fail heq
      obtain ⟨p, rest, hpr⟩ := List.exists_cons_of_ne_nil hne
      rw [hpr] at heq
      have := convert_loop_cons_creates c cod p rest 0 0 0 _ w6 (conv, fail)
        hmk heq
      cases h
      exact this
    · cases h

/-- Witness for C10: with every input corrupt (all decodes fail), the batch
completes with `failed = 2` and the output folder has still been created. -/
theorem convert_all_creates_output_folder_witness :
    demoConv.output_folder ∈
      (convert_all demoConv demoFailDecodeCodec demoWorld).world.dirs :=
  convert_all_creates_output_folder demoConv demoFailDecodeCodec demoWorld
    (by decide) (by decide)
    (convert_all demoConv demoFailDecodeCodec demoWorld).world ⟨2, 0, 2⟩
    (by decide)

/-- An oracle on which every save fails mid-write, leaving a truncated file
(Pillow's `save` opens the destination and encodes into it in place); decodes
succeed. -/
def demoTruncCodec : Codec :=
  ⟨fun _ => .ok "RGB", fun _ => true, fun _ => false, fun _ => true, true,
   fun _ => false⟩

/-- C3 (refuting evidence): when `img.save` fails mid-write, `convert_image`
returns `false` yet a truncated artifact now sits at the output path, which
was previously absent — the code saves straight to `output_folder/stem.webp`
with no temp-file-then-rename step, so the output path is not left as it was. -/
theorem convert_image_truncated_artifact_on_save_failure :
    (convert_image demoConv demoTruncCodec demoWorld "in/a.png").okValue =
      some false ∧
    List.lookup "out/a.webp" demoWorld.files = none ∧
    List.lookup "out/a.webp"
        (convert_image demoConv demoTruncCodec demoWorld "in/a.png").world.files =
      some (.truncatedWebp "in/a.png" "RGB" 80) :=
  ⟨by decide, by decide, by decide⟩

/-- Looking up a path right after writing it yields the written content. -/
lemma lookup_setFile_self (l : List (String × FileContent)) (k : String)
    (v : FileContent) : List.lookup k (setFile l k v) = some v := by
  simp [setFile, List.lookup]

/-- Exact result of a fully successful `convert_image`: the output folder is
ensured, the image decoded to mode `m` is normalized and written to
`output_path`, the success line is printed, and `true` is returned. -/
lemma convert_image_success_eq (c : ImageConverter) (cod : Codec) (w : World)
    (p m : String) (hd : cod.decode p = .ok m) (hcv : cod.convertOk p = true)
    (hs : cod.saveOk p = true) (hmk : cod.mkdirOk = true) :
    convert_image c cod w p =
      .ok (printLine
        { dirs := if c.output_folder ∈ w.dirs then w.dirs
                  else c.output_folder :: w.dirs,
          files := setFile w.files (output_path c p)
            (.webp p (normalize_mode m) c.quality),
          stdout := w.stdout }
        ("✓ Converted: " ++ pyBasename p ++ " -> " ++ (pyStem p ++ ".webp")))
        true := by
  simp [convert_image, convert_image_body, hd, hcv, hs, hmk]

/-- C9: two discovered inputs whose filenames share a stem map to the same
output path; when both convert successfully in a two-file batch, the one
processed later overwrites the earlier one's output (the final content at the
shared path comes from the second file), while the statistics still count both
individually as converted. -/
theorem same_stem_silent_overwrite (c : ImageConverter) (cod : Codec)
    (w : World) (p1 p2 m1 m2 : String) (i : Nat)
    (hstem : pyStem p1 = pyStem p2)
    (hd1 : cod.decode p1 = .ok m1) (hd2 : cod.decode p2 = .ok m2)
    (hcv1 : cod.convertOk p1 = true) (hcv2 : cod.convertOk p2 = true)
    (hs1 : cod.saveOk p1 = true) (hs2 : cod.saveOk p2 = true)
    (hmk : cod.mkdirOk = true)
    (hint1 : cod.interrupted i = false)
    (hint2 : cod.interrupted (i + 1) = false) :
    output_path c p1 = output_path c p2 ∧
    ∃ w2, convert_loop c cod [p1, p2] i 0 0 w = .ok w2 (2, 0) ∧
      List.lookup (output_path c p1) w2.files =
        some (.webp p2 (normalize_mode m2) c.quality) := by
  have hout : output_path c p1 = output_path c p2 := by
    unfold output_path
    rw [hstem]
  refine ⟨hout, ?_⟩
  have h1 := convert_image_success_eq c cod w p1 m1 hd1 hcv1 hs1 hmk
  unfold convert_loop
  rw [hint1]
  simp only [Bool.false_eq_true, if_false, h1]
  unfold convert_loop
  rw [hint2]
  set wmid := printLine
    { dirs := if c.output_folder ∈ w.dirs then w.dirs
              else c.output_folder :: w.dirs,
      files := setFile w.files (output_path c p1)
        (.webp p1 (normalize_mode m1) c.quality),
      stdout := w.stdout }
    ("✓ Converted: " ++ pyBasename p1 ++ " -> " ++ (pyStem p1 ++ ".webp"))
    with hwmid
  have h2 := convert_image_success_eq c cod wmid p2 m2 hd2 hcv2 hs2 hmk
  simp only [Bool.false_eq_true, if_false, h2]
  unfold convert_loop
  refine ⟨_, rfl, ?_⟩
  rw [hout]
  simp only [printLine]
  exact lookup_setFile_self _ _ _

/-- Witness for C9: `a.jpg` and `a.png` share the stem `a`; both convert, and
the shared output `out/a.webp` ends up holding the encode of `a.png`, the file
processed later. -/
theorem same_stem_silent_overwrite_witness :
    output_path demoConv "in/a.jpg" = output_path demoConv "in/a.png" ∧
    ∃ w2, convert_loop demoConv demoCodec ["in/a.jpg", "in/a.png"] 0 0 0
        ⟨["in"], [("in/a.jpg", .raw "jpg"), ("in/a.png", .raw "png")], []⟩ =
        .ok w2 (2, 0) ∧
      List.lookup (output_path demoConv "in/a.jpg") w2.files =
        some (.webp "in/a.png" (normalize_mode "RGB") demoConv.quality) :=
  same_stem_silent_overwrite demoConv demoCodec
    ⟨["in"], [("in/a.jpg", .raw "jpg"), ("in/a.png", .raw "png")], []⟩
    "in/a.jpg" "in/a.png" "RGB" "RGB" 0 (by decide) rfl rfl rfl rfl rfl rfl
    rfl rfl rfl

/-- C6: the process exit code is 0 exactly on full success — quality in range,
construction succeeded, the batch completed and no file failed (including the
zero-files case) — and 1 otherwise: any failed file, a missing or
non-directory input folder, an out-of-range quality (rejected before any
conversion is attempted: nothing but the error line happens), or a
user interrupt. -/
theorem py_main_exit_codes (args : Args) (cod : Codec) (w : World) :
    ((py_main args cod w).2 = 0 ∨ (py_main args cod w).2 = 1) ∧
    ((py_main args cod w).2 = 0 ↔
      (0 ≤ args.quality ∧ args.quality ≤ 100) ∧
      ∃ c w1 stats,
        ImageConverter.init args.input_folder args.output args.quality w =
          .ok c ∧
        convert_all c cod w = .ok w1 stats ∧ stats.failed = 0) ∧
    (¬(0 ≤ args.quality ∧ args.quality ≤ 100) →
      py_main args cod w =
        (printLine w "Error: Quality must be between 0 and 100", 1)) := by
  unfold py_main
  split
  · rename_i hq
    refine ⟨Or.inr rfl, ?_, fun _ => rfl⟩
    simp [hq]
  · rename_i hq
    have hq2 : 0 ≤ args.quality ∧ args.quality ≤ 100 := not_not.mp hq
    split
    · rename_i e hinit
      refine ⟨Or.inr rfl, ?_, fun h2 => absurd h2 hq⟩
      constructor
      · intro h0; simp at h0
      · rintro ⟨-, c', w1', stats', hinit', -, -⟩
        rw [hinit] at hinit'
        cases hinit'
    · rename_i c hinit
      split
      · rename_i w1 stats hca
        split
        · rename_i hfail
          refine ⟨Or.inr rfl, ?_, fun h2 => absurd h2 hq⟩
          constructor
          · intro h0; simp at h0
          · rintro ⟨-, c', w1', stats', hinit', hca', hzero⟩
            rw [hinit] at hinit'
            cases hinit'
            rw [hca] at hca'
            cases hca'
            exact absurd hzero (by omega)
        · rename_i hfail
          have hzero : stats.failed = 0 := by omega
          refine ⟨Or.inl rfl, ?_, fun h2 => absurd h2 hq⟩
          constructor
          · intro _
            exact ⟨hq2, c, w1, stats, hinit, hca, hzero⟩
          · intro _
            rfl
      · rename_i w1 hca
        refine ⟨Or.inr rfl, ?_, fun h2 => absurd h2 hq⟩
        constructor
        · intro h0; simp at h0
        · rintro ⟨-, c', w1', stats', hinit', hca', -⟩
          rw [hinit] at hinit'
          cases hinit'
          rw [hca] at hca'
          cases hca'
      · rename_i w1 m hca
        refine ⟨Or.inr rfl, ?_, fun h2 => absurd h2 hq⟩
        constructor
        · intro h0; simp at h0
        · rintro ⟨-, c', w1', stats', hinit', hca', -⟩
          rw [hinit] at hinit'
          cases hinit'
          rw [hca] at hca'
          cases hca'
      · rename_i w1 m hca
        refine ⟨Or.inr rfl, ?_, fun h2 => absurd h2 hq⟩
        constructor
        · intro h0; simp at h0
        · rintro ⟨-, c', w1', stats', hinit', hca', -⟩
          rw [hinit] at hinit'
          cases hinit'
          rw [hca] at hca'
          cases hca'
      · rename_i w1 m hca
        refine ⟨Or.inr rfl, ?_, fun h2 => absurd h2 hq⟩
        constructor
        · intro h0; simp at h0
        · rintro ⟨-, c', w1', stats', hinit', hca', -⟩
          rw [hinit] at hinit'
          cases hinit'
          rw [hca] at hca'
          cases hca'

/-- Witness for C6: quality 101 is rejected with exit code 1 before any
conversion; a fully successful demo run exits 0; a run in which every file
fails exits 1. -/
theorem py_main_exit_codes_witness :
    py_main ⟨"in", some "out", 101⟩ demoCodec demoWorld =
      (printLine demoWorld "Error: Quality must be between 0 and 100", 1) ∧
    (py_main ⟨"in", some "out", 80⟩ demoCodec demoWorld).2 = 0 ∧
    (py_main ⟨"in", some "out", 80⟩ demoFailDecodeCodec demoWorld).2 = 1 :=
  ⟨(py_main_exit_codes ⟨"in", some "out", 101⟩ demoCodec demoWorld).2.2
      (by decide),
   ((py_main_exit_codes ⟨"in", some "out", 80⟩ demoCodec demoWorld).2.1).2
     ⟨by decide, ⟨"in", "out", 80⟩,
      (convert_all ⟨"in", "out", 80⟩ demoCodec demoWorld).world, ⟨2, 2, 0⟩,
      rfl, by decide, rfl⟩,
   by decide⟩
